import Mathlib

/-!
Formal model of the sciunit core (file sciunit/__init__.py): the Score
hierarchy, the Test judging protocol, TestSuite batching and the
ScoreMatrix store.  Python objects are shallowly embedded as Lean
structures, exceptions as an inductive type, and every method that can
raise is a function into Except.  Dictionaries keyed by object identity
are modelled as association lists keyed by a numeric object id.

Scoping note: the source is written with Python 2 idioms (the
metaclass block in Capability, old-style super calls), so in
Test.check the binding produced by the except clause is taken to
survive the handler, as it does in Python 2; the subsequent
"if e and stop_on_error" test therefore sees the caught exception.
-/

namespace Sciunit

/-- Exceptions that can arise in the sciunit core.  Error is sciunit.Error,
CapabilityError carries the model name and the capability name used to
build its message, and userExn stands for an arbitrary test-author
exception such as ValueError. -/
inductive Exn where
  | error (msg : String)
  | observationError (msg : String)
  | capabilityError (modelName capName : String)
  | invalidScoreError (msg : String)
  | notImplementedError (msg : String)
  | typeError (msg : String)
  | keyError (key : Nat)
  | userExn (name msg : String)
deriving DecidableEq

/-- Python str(e) for an exception e: the message it was constructed with.
CapabilityError builds its message from the model and capability names. -/
def Exn.toStr : Exn → String
  | .error m => m
  | .observationError m => m
  | .capabilityError mn cn =>
      "Model " ++ mn ++ " does not provide required capability: " ++ cn
  | .invalidScoreError m => m
  | .notImplementedError m => m
  | .typeError m => m
  | .keyError _ => "KeyError"
  | .userExn _ m => m

/-- Whether an exception is (an instance of) CapabilityError; in the source
CapabilityError subclasses Exception directly and has no subclasses. -/
def Exn.isCapabilityError : Exn → Bool
  | .capabilityError _ _ => true
  | _ => false

/-- Python values that flow through the core as raw scores, observations
and predictions: None, an exception object, a string, or a number. -/
inductive Val where
  | none
  | exn (e : Exn)
  | str (s : String)
  | int (n : Int)
deriving DecidableEq

/-- Whether a value is an exception object (Python isinstance(v, Exception)). -/
def Val.isExn : Val → Bool
  | .exn _ => true
  | _ => false

/-- Whether a value is Python None. -/
def Val.isNone : Val → Bool
  | .none => true
  | _ => false

/-- The closed set of Score classes defined by the source. -/
inductive ScoreClass where
  | Score
  | ErrorScore
  | NoneScore
  | TBDScore
  | NAScore
deriving DecidableEq

/-- Python issubclass on the Score hierarchy of the source: ErrorScore and
NoneScore subclass Score; TBDScore and NAScore subclass NoneScore. -/
def ScoreClass.isSubclassOf : ScoreClass → ScoreClass → Bool
  | _, .Score => true
  | .ErrorScore, .ErrorScore => true
  | .NoneScore, .NoneScore => true
  | .TBDScore, c => c == ScoreClass.TBDScore || c == ScoreClass.NoneScore
  | .NAScore, c => c == ScoreClass.NAScore || c == ScoreClass.NoneScore
  | _, _ => false

/-- A model: a named object whose concrete class is a node of the class
hierarchy.  The id field is the object identity used for dictionary keys. -/
structure Model where
  id : Nat
  name : String
  cls : Nat
deriving DecidableEq

/-- A score object.  cls is the dynamic (effective) class, score the raw
value; model, test, prediction and observation are the back-references
attached only by Test.judge (the test reference is the test object id).
Class-level attributes not touched by the judging protocol (value,
sort key, description) are omitted. -/
structure ScoreObj where
  cls : ScoreClass
  score : Val
  related_data : List (String × Val) := []
  model : Option Model := Option.none
  test : Option Nat := Option.none
  prediction : Option Val := Option.none
  observation : Option Val := Option.none
deriving DecidableEq

/-- Score.__init__: stores the raw value and related data (already
defaulted to the empty mapping by the caller when omitted) and, when the
raw value is an exception, reassigns the dynamic class to ErrorScore. -/
def Score.init (cls : ScoreClass) (score : Val)
    (related_data : List (String × Val)) : ScoreObj :=
  { cls := if score.isExn then ScoreClass.ErrorScore else cls
    score := score
    related_data := related_data }

/-- Constructing an instance of class k with the given raw value, the way
Python dispatches __init__: Score and ErrorScore go straight to
Score.__init__, while NoneScore (and TBDScore and NAScore, whose
constructors delegate to it) first rejects any raw value other than None
or an exception with an InvalidScoreError. -/
def constructScore (k : ScoreClass) (score : Val)
    (related_data : List (String × Val)) : Except Exn ScoreObj :=
  match k with
  | .Score => Except.ok (Score.init ScoreClass.Score score related_data)
  | .ErrorScore => Except.ok (Score.init ScoreClass.ErrorScore score related_data)
  | .NoneScore | .TBDScore | .NAScore =>
      if score.isExn || score.isNone then
        Except.ok (Score.init k score related_data)
      else
        Except.error (Exn.invalidScoreError "Score must be None.")

/-- The class hierarchy that models and capabilities live in: each class
(a numeric id) has a list of direct base classes and a display name.  The
rank function witnesses that the hierarchy is well-founded, as Python
guarantees for its class graphs. -/
structure Hierarchy where
  bases : Nat → List Nat
  cname : Nat → String
  rank : Nat → Nat
  rank_lt : ∀ c b, b ∈ bases c → rank b < rank c

/-- Fuel-bounded walk of the class hierarchy: does class c equal target or
reach it through base classes in at most fuel steps. -/
def isinstFuel (h : Hierarchy) : Nat → Nat → Nat → Bool
  | 0, c, target => c == target
  | fuel + 1, c, target =>
      c == target || (h.bases c).any (fun b => isinstFuel h fuel b target)

/-- Python isinstance restricted to classes: class c conforms to class
target.  The rank of c bounds the length of any base-class chain from c,
so it is sufficient fuel. -/
def isinstance (h : Hierarchy) (c target : Nat) : Bool :=
  isinstFuel h (h.rank c) c target

/-- Nominal subclass conformance: class c derives from class target by a
chain of base-class edges (reflexive). -/
inductive Derives (h : Hierarchy) : Nat → Nat → Prop
  | refl (c : Nat) : Derives h c c
  | step {c b target : Nat} : b ∈ h.bases c → Derives h b target →
      Derives h c target

/-- Capability.check: a model has a capability class exactly when the
model is an instance of it (the source returns isinstance(model, cls)). -/
def Capability.check (h : Hierarchy) (c : Nat) (m : Model) : Bool :=
  isinstance h m.cls c

/-- A test: its name, observation, required capability classes, declared
score type, and the two abstract operations a concrete test supplies.
The id field is the object identity used for dictionary keys. -/
structure Test where
  id : Nat
  name : String
  observation : Val
  required_capabilities : List Nat
  score_type : ScoreClass
  generate_prediction : Model → Except Exn Val
  compute_score : Val → Val → Except Exn ScoreObj

/-- Test.check_capabilities: raises a CapabilityError at the first
required capability the model does not have, else returns True.  The
guard that the argument is a sciunit Model cannot fire here because the
argument is already typed as a Model. -/
def Test.check_capabilities (h : Hierarchy) (t : Test) (m : Model) :
    Except Exn Bool :=
  match t.required_capabilities.find? (fun c => ! Capability.check h c m) with
  | Option.some c => Except.error (Exn.capabilityError m.name (h.cname c))
  | Option.none => Except.ok true

/-- Test._judge: capability gate, prediction, scoring, score-type
validation, then metadata attachment.  The assignment of last_model on
the test object is not modelled; no observable of the claims depends on
it. -/
def Test._judge (h : Hierarchy) (t : Test) (m : Model) : Except Exn ScoreObj :=
  match Test.check_capabilities h t m with
  | Except.error e => Except.error e
  | Except.ok _ =>
    match t.generate_prediction m with
    | Except.error e => Except.error e
    | Except.ok prediction =>
      match t.compute_score t.observation prediction with
      | Except.error e => Except.error e
      | Except.ok score =>
        if score.cls.isSubclassOf t.score_type then
          Except.ok { score with
            model := Option.some m
            test := Option.some t.id
            prediction := Option.some prediction
            observation := Option.some t.observation }
        else
          Except.error (Exn.invalidScoreError
            ("Score for test " ++ t.name ++ " is not of correct type."))

/-- Test.judge: in deep mode _judge runs bare; otherwise a CapabilityError
is converted via NAScore(str(e)) and any other exception via
ErrorScore(e), with an exception escaping a converting constructor
propagating (nothing catches it).  Afterwards, if the score object is
exactly of class ErrorScore and stop_on_error is set, the wrapped raw
value is raised (a raise of a non-exception value is a TypeError). -/
def Test.judge (h : Hierarchy) (t : Test) (m : Model)
    (stop_on_error deep_error : Bool) : Except Exn ScoreObj :=
  let attempted : Except Exn ScoreObj :=
    if deep_error then
      Test._judge h t m
    else
      match Test._judge h t m with
      | Except.ok s => Except.ok s
      | Except.error e =>
        if e.isCapabilityError then
          constructScore ScoreClass.NAScore (Val.str e.toStr) []
        else
          constructScore ScoreClass.ErrorScore (Val.exn e) []
  match attempted with
  | Except.error e => Except.error e
  | Except.ok s =>
    if s.cls == ScoreClass.ErrorScore && stop_on_error then
      match s.score with
      | Val.exn e => Except.error e
      | _ => Except.error (Exn.typeError "exceptions must derive from BaseException")
    else
      Except.ok s

/-- Test.check: runs only the capability gate, building TBDScore(None)
when it returns True and NAScore(None) when it returns False (inside the
try block, so a constructor exception would also be caught); an exception
is converted to ErrorScore(e) and, per the Python 2 scoping noted in the
file header, re-raised when stop_on_error is set. -/
def Test.check (h : Hierarchy) (t : Test) (m : Model) (stop_on_error : Bool) :
    Except Exn ScoreObj :=
  let attempted : Except Exn ScoreObj :=
    match Test.check_capabilities h t m with
    | Except.error e => Except.error e
    | Except.ok ok =>
      if ok then constructScore ScoreClass.TBDScore Val.none []
      else constructScore ScoreClass.NAScore Val.none []
  match attempted with
  | Except.ok s => Except.ok s
  | Except.error e =>
    if stop_on_error then Except.error e
    else Except.ok (Score.init ScoreClass.ErrorScore (Val.exn e) [])

/-- Lookup in an association list by key: the value at the first matching
key, the way a Python dictionary read behaves. -/
def assocGet {α : Type} : List (Nat × α) → Nat → Option α
  | [], _ => Option.none
  | (k0, v0) :: rest, k =>
      if k0 == k then Option.some v0 else assocGet rest k

/-- Write into an association list by key: replaces the value at the first
matching key, or appends a new entry at the end when the key is absent,
the way a Python dictionary write behaves (insertion order preserved). -/
def assocSet {α : Type} : List (Nat × α) → Nat → α → List (Nat × α)
  | [], k, v => [(k, v)]
  | (k0, v0) :: rest, k, v =>
      if k0 == k then (k0, v) :: rest else (k0, v0) :: assocSet rest k v

/-- Evaluation of a Python generator expression over a list, stopping at
the first raised exception (as tuple(...) over a generator does). -/
def mapExcept {α β : Type} (f : α → Except Exn β) : List α → Except Exn (List β)
  | [] => Except.ok []
  | x :: xs =>
    match f x with
    | Except.error e => Except.error e
    | Except.ok y =>
      match mapExcept f xs with
      | Except.error e => Except.error e
      | Except.ok ys => Except.ok (y :: ys)

/-- Sequential left fold over a list, stopping at the first raised
exception; used for the suite judging loops. -/
def foldExcept {σ α : Type} (f : σ → α → Except Exn σ) (init : σ) :
    List α → Except Exn σ
  | [] => Except.ok init
  | x :: xs =>
    match f init x with
    | Except.error e => Except.error e
    | Except.ok st => foldExcept f st xs

/-- A score matrix: the construction-time tests and models plus the
nested dictionary, outer keys test object ids and inner keys model
object ids; unset cells hold Python None, modelled as Option.none. -/
structure ScoreMatrix where
  tests : List Test
  models : List Model
  matrix : List (Nat × List (Nat × Option ScoreObj))

/-- ScoreMatrix.__init__: a row per test, a None cell per model. -/
def ScoreMatrix.make (tests : List Test) (models : List Model) : ScoreMatrix :=
  { tests := tests
    models := models
    matrix := tests.map (fun t =>
      (t.id, models.map (fun m => (m.id, (Option.none : Option ScoreObj))))) }

/-- A Python object appearing as a component of a matrix key or as an
assigned value: a test, a model, a score, or anything else. -/
inductive Entity where
  | test (t : Test)
  | model (m : Model)
  | score (s : ScoreObj)
  | raw (v : Val)

/-- A key passed to ScoreMatrix.__getitem__: a single test, a single
model, or a tuple (any other single object fails isinstance for Test and
Model and then fails to unpack, which the tuple case with a wrong shape
also covers). -/
inductive PyKey where
  | test (t : Test)
  | model (m : Model)
  | tuple (es : List Entity)

/-- Result of ScoreMatrix.__getitem__: a single cell or a tuple of cells. -/
inductive ItemResult where
  | one (c : Option ScoreObj)
  | many (cs : List (Option ScoreObj))
deriving DecidableEq

/-- The Python expression _matrix[tid][mid]: read the row dictionary at
the test id, then the cell at the model id, raising KeyError when either
key is absent. -/
def lookupCell (mat : List (Nat × List (Nat × Option ScoreObj)))
    (tid mid : Nat) : Except Exn (Option ScoreObj) :=
  match assocGet mat tid with
  | Option.none => Except.error (Exn.keyError tid)
  | Option.some row =>
    match assocGet row mid with
    | Option.none => Except.error (Exn.keyError mid)
    | Option.some c => Except.ok c

/-- ScoreMatrix.__getitem__: a Test key gives the row across all models in
construction model order; a Model key gives the column across all tests in
construction test order; a two-element (test, model) tuple gives that
cell.  A lookup whose key object is not present in the dictionary raises
KeyError; rows are keyed only by test ids and columns only by model ids,
so entities of any other kind are never found. -/
def ScoreMatrix.getItem (sm : ScoreMatrix) (key : PyKey) :
    Except Exn ItemResult :=
  match key with
  | PyKey.test t =>
    (mapExcept (fun m => lookupCell sm.matrix t.id m.id) sm.models).map
      ItemResult.many
  | PyKey.model m =>
    (mapExcept (fun t => lookupCell sm.matrix t.id m.id) sm.tests).map
      ItemResult.many
  | PyKey.tuple es =>
    match es with
    | [Entity.test t, Entity.model m] =>
      (lookupCell sm.matrix t.id m.id).map ItemResult.one
    | [Entity.test t, _] =>
      match assocGet sm.matrix t.id with
      | Option.none => Except.error (Exn.keyError t.id)
      | Option.some _ => Except.error (Exn.keyError 0)
    | [_, _] => Except.error (Exn.keyError 0)
    | _ => Except.error (Exn.typeError "cannot unpack key into (test, model)")

/-- ScoreMatrix.__setitem__: the key must unpack into two components
(anything else raises before the type checks); when the components are a
Test, a Model and a Score the cell is written, reading the row by the
test id first (KeyError when the test is not a row key) and then writing
the model id into that row, a write that inserts a fresh cell when the
model id is absent; any other combination of component types raises the
framework Error without touching the dictionary. -/
def ScoreMatrix.setItem (sm : ScoreMatrix) (key : List Entity)
    (value : Entity) : Except Exn ScoreMatrix :=
  match key with
  | [kt, km] =>
    match kt, km, value with
    | Entity.test t, Entity.model m, Entity.score s =>
      match assocGet sm.matrix t.id with
      | Option.none => Except.error (Exn.keyError t.id)
      | Option.some row =>
        Except.ok { sm with
          matrix := assocSet sm.matrix t.id (assocSet row m.id (Option.some s)) }
    | _, _, _ => Except.error (Exn.error "Expected (test, model) = score.")
  | _ => Except.error (Exn.typeError "cannot unpack key into (test, model)")

/-- A test suite: a name and an ordered sequence of tests.  The
construction-time validation (singleton normalization, the member type
checks, the mandatory name) happens before judging and is not needed by
the judging claims. -/
structure TestSuite where
  name : String
  tests : List Test

/-- TestSuite.judge over an already-validated list of models: builds the
matrix and then, for every test in suite order and every model in caller
order, stores test.judge(model, stop_on_error) in the cell; an exception
escaping a cell judgment aborts the remaining iterations. -/
def TestSuite.judge (h : Hierarchy) (suite : TestSuite) (models : List Model)
    (stop_on_error : Bool) : Except Exn ScoreMatrix :=
  foldExcept (fun acc t =>
      foldExcept (fun acc2 m =>
          match Test.judge h t m stop_on_error false with
          | Except.error e => Except.error e
          | Except.ok s =>
            ScoreMatrix.setItem acc2 [Entity.test t, Entity.model m]
              (Entity.score s))
        acc models)
    (ScoreMatrix.make suite.tests models) suite.tests

/-!
Concrete fixtures used by witnesses, counterexamples and failing-input
evaluations: class 1 is a capability class named CapX, class 2 a model
class deriving from it, class 3 a model class with no bases.
-/

/-- A small concrete class hierarchy. -/
def H0 : Hierarchy where
  bases := fun c => if c = 2 then [1] else []
  cname := fun c => if c = 1 then "CapX" else "Cls" ++ toString c
  rank := fun c => c
  rank_lt := by
    intro c b hb
    by_cases hc : c = 2
    · subst hc
      simp at hb
      subst hb
      decide
    · simp [hc] at hb

/-- A model whose class derives from the capability class. -/
def mHas : Model := { id := 1, name := "m1", cls := 2 }

/-- A model whose class does not derive from the capability class. -/
def mLacks : Model := { id := 2, name := "m2", cls := 3 }

/-- A concrete test requiring capability class 1, with a prediction and a
scoring function that always succeed. -/
def tCap : Test where
  id := 10
  name := "T1"
  observation := Val.int 0
  required_capabilities := [1]
  score_type := ScoreClass.Score
  generate_prediction := fun _ => Except.ok (Val.int 7)
  compute_score := fun _ _ =>
    Except.ok (Score.init ScoreClass.Score (Val.int 1) [])

/-- A concrete test with no required capabilities whose
generate_prediction raises a CapabilityError. -/
def tPredCap : Test where
  id := 11
  name := "T2c"
  observation := Val.int 0
  required_capabilities := []
  score_type := ScoreClass.Score
  generate_prediction := fun _ =>
    Except.error (Exn.capabilityError "mx" "cx")
  compute_score := fun _ _ =>
    Except.ok (Score.init ScoreClass.Score (Val.int 1) [])

/-- A concrete test with no required capabilities whose
generate_prediction raises ValueError("bad input"). -/
def tPredErr : Test where
  id := 12
  name := "T2"
  observation := Val.int 0
  required_capabilities := []
  score_type := ScoreClass.Score
  generate_prediction := fun _ =>
    Except.error (Exn.userExn "ValueError" "bad input")
  compute_score := fun _ _ =>
    Except.ok (Score.init ScoreClass.Score (Val.int 1) [])

/-- A concrete score value for matrix writes. -/
def sBlank : ScoreObj := Score.init ScoreClass.Score (Val.int 5) []

/-- A one-test one-model matrix as built at suite start. -/
def sm0 : ScoreMatrix := ScoreMatrix.make [tCap] [mHas]

/-- A suite holding the capability-gated test. -/
def suite0 : TestSuite := { name := "S", tests := [tCap] }

/-!
Soundness and completeness of the fuel-bounded isinstance walk with
respect to the nominal subclass relation.
-/

/-- Soundness: a successful fuel-bounded walk exhibits a derivation. -/
theorem isinstFuel_sound (h : Hierarchy) :
    ∀ (fuel c target : Nat), isinstFuel h fuel c target = true →
      Derives h c target := by
  intro fuel
  induction fuel with
  | zero =>
    intro c target hc
    simp only [isinstFuel, beq_iff_eq] at hc
    exact hc ▸ Derives.refl c
  | succ n ih =>
    intro c target hc
    simp only [isinstFuel, Bool.or_eq_true, beq_iff_eq, List.any_eq_true] at hc
    rcases hc with rfl | ⟨b, hb, hf⟩
    · exact Derives.refl c
    · exact Derives.step hb (ih b target hf)

/-- Completeness: any derivation is found once the fuel reaches the rank
of the starting class. -/
theorem isinstFuel_complete (h : Hierarchy) {c target : Nat}
    (hd : Derives h c target) :
    ∀ fuel, h.rank c ≤ fuel → isinstFuel h fuel c target = true := by
  induction hd with
  | refl c =>
    intro fuel _
    cases fuel <;> simp [isinstFuel]
  | @step c b target hb _ ih =>
    intro fuel hf
    have hrank : h.rank b < h.rank c := h.rank_lt c b hb
    cases fuel with
    | zero => omega
    | succ n =>
      simp only [isinstFuel, Bool.or_eq_true, beq_iff_eq, List.any_eq_true]
      exact Or.inr ⟨b, hb, ih n (by omega)⟩

/-- C10: with the default Capability.check, a capability check on a model
succeeds exactly when the model's class derives from the capability class
through base-class edges (nominal subclass conformance); the check is a
pure function with no effect on the model or the capability. -/
theorem C10_capability_check_is_nominal (h : Hierarchy) (c : Nat) (m : Model) :
    Capability.check h c m = true ↔ Derives h m.cls c :=
  ⟨fun hc => isinstFuel_sound h _ _ _ hc,
   fun hd => isinstFuel_complete h hd _ (Nat.le_refl _)⟩

/-- C10 witness: the concrete model of class 2 has capability class 1. -/
theorem C10_capability_check_is_nominal_witness : Derives H0 mHas.cls 1 :=
  (C10_capability_check_is_nominal H0 1 mHas).mp rfl

/-- C2: constructing any of the five Score classes with an exception as
the raw value succeeds and yields an object whose effective class is
ErrorScore. -/
theorem C2_exception_reclassifies_to_error_score (k : ScoreClass) (e : Exn)
    (rd : List (String × Val)) :
    ∃ s, constructScore k (Val.exn e) rd = Except.ok s ∧
      s.cls = ScoreClass.ErrorScore := by
  cases k <;> exact ⟨_, rfl, rfl⟩

/-- C1 failing input: judging a test whose required capability the model
lacks does not return an NAScore carrying the error message; the handler
calls NAScore(str(e)) with a string, NoneScore rejects it, and the
resulting InvalidScoreError escapes judge for both values of
stop_on_error. -/
theorem C1_capability_mismatch_raises_invalid_score_error :
    Test.judge H0 tCap mLacks true false
        = Except.error (Exn.invalidScoreError "Score must be None.") ∧
    Test.judge H0 tCap mLacks false false
        = Except.error (Exn.invalidScoreError "Score must be None.") :=
  ⟨rfl, rfl⟩

/-- C3 counterexample: when generate_prediction raises a CapabilityError
(an exception like any other), judge with stop_on_error=False does not
return an ErrorScore wrapping it; the CapabilityError handler catches it
and the NAScore(str(e)) conversion raises InvalidScoreError instead. -/
theorem C3_counterexample_capability_error_from_prediction :
    Test.judge H0 tPredCap mHas false false
        = Except.error (Exn.invalidScoreError "Score must be None.") :=
  rfl

/-- C5 counterexample: for a model lacking a required capability, check
with stop_on_error=False returns an ErrorScore wrapping the
CapabilityError, not the NAScore(None) the claim promises; the NAScore
branch is unreachable because check_capabilities raises instead of
returning False. -/
theorem C5_counterexample_missing_capability_gives_error_score :
    (Test.check H0 tCap mLacks false).map (fun s => s.cls)
        = Except.ok ScoreClass.ErrorScore :=
  rfl

/-- C9 failing input: a suite cell whose model lacks the test's required
capability aborts the whole batch via the InvalidScoreError escaping
Test.judge, so no ScoreMatrix is returned and the remaining cells
(here the whole mHas column) are never judged. -/
theorem C9_capability_mismatch_aborts_suite :
    TestSuite.judge H0 suite0 [mLacks, mHas] false
        = Except.error (Exn.invalidScoreError "Score must be None.") :=
  rfl

/-- C6: constructing NoneScore, TBDScore or NAScore with a raw value that
is neither None nor an exception fails with the invalid-score error, and
constructing any of the three with None succeeds. -/
theorem C6_none_score_family_validation (k : ScoreClass) (v : Val)
    (hk : k = ScoreClass.NoneScore ∨ k = ScoreClass.TBDScore ∨
      k = ScoreClass.NAScore)
    (hv : v.isExn = false ∧ v.isNone = false) :
    constructScore k v []
        = Except.error (Exn.invalidScoreError "Score must be None.") ∧
    (∃ s, constructScore k Val.none [] = Except.ok s) := by
  obtain ⟨h1, h2⟩ := hv
  rcases hk with rfl | rfl | rfl <;>
    exact ⟨by simp [constructScore, h1, h2], ⟨_, rfl⟩⟩

/-- C6 witness: NAScore(3) fails with the invalid-score error while
NAScore(None) constructs. -/
theorem C6_none_score_family_validation_witness :
    constructScore ScoreClass.NAScore (Val.int 3) []
        = Except.error (Exn.invalidScoreError "Score must be None.") ∧
    (∃ s, constructScore ScoreClass.NAScore Val.none [] = Except.ok s) :=
  C6_none_score_family_validation ScoreClass.NAScore (Val.int 3)
    (Or.inr (Or.inr rfl)) ⟨rfl, rfl⟩

/-- C3 amended: when the capability gate passes and generate_prediction
raises an exception that is not a CapabilityError, judge with
stop_on_error=False returns an ErrorScore whose raw value is exactly that
exception, and judge with stop_on_error=True raises that same exception
after the ErrorScore has been constructed. -/
theorem C3_amended_prediction_error_routing (h : Hierarchy) (t : Test)
    (m : Model) (e : Exn)
    (hgate : Test.check_capabilities h t m = Except.ok true)
    (hpred : t.generate_prediction m = Except.error e)
    (hnotcap : e.isCapabilityError = false) :
    (Test.judge h t m false false
        = Except.ok (Score.init ScoreClass.ErrorScore (Val.exn e) []) ∧
      (Score.init ScoreClass.ErrorScore (Val.exn e) []).cls
        = ScoreClass.ErrorScore ∧
      (Score.init ScoreClass.ErrorScore (Val.exn e) []).score = Val.exn e) ∧
    Test.judge h t m true false = Except.error e := by
  have hj : Test._judge h t m = Except.error e := by
    unfold Test._judge
    rw [hgate, hpred]
  constructor
  · refine ⟨?_, rfl, rfl⟩
    unfold Test.judge
    rw [hj]
    simp [hnotcap, constructScore, Score.init, Val.isExn]
  · unfold Test.judge
    rw [hj]
    simp [hnotcap, constructScore, Score.init, Val.isExn]

/-- C3 amended witness: the concrete test whose prediction raises
ValueError("bad input") returns that ErrorScore without stopping and
re-raises the ValueError when stopping. -/
theorem C3_amended_prediction_error_routing_witness :
    (Test.judge H0 tPredErr mHas false false
        = Except.ok (Score.init ScoreClass.ErrorScore
            (Val.exn (Exn.userExn "ValueError" "bad input")) []) ∧
      (Score.init ScoreClass.ErrorScore
          (Val.exn (Exn.userExn "ValueError" "bad input")) []).cls
        = ScoreClass.ErrorScore ∧
      (Score.init ScoreClass.ErrorScore
          (Val.exn (Exn.userExn "ValueError" "bad input")) []).score
        = Val.exn (Exn.userExn "ValueError" "bad input")) ∧
    Test.judge H0 tPredErr mHas true false
        = Except.error (Exn.userExn "ValueError" "bad input") :=
  C3_amended_prediction_error_routing H0 tPredErr mHas
    (Exn.userExn "ValueError" "bad input") rfl rfl rfl

/-- Helper: a score returned by _judge passed the score-type validation,
and the metadata attachment does not change its class. -/
theorem _judge_ok_cls (h : Hierarchy) (t : Test) (m : Model) (s : ScoreObj)
    (hj : Test._judge h t m = Except.ok s) :
    s.cls.isSubclassOf t.score_type = true := by
  unfold Test._judge at hj
  split at hj
  · exact absurd hj (by simp)
  · split at hj
    · exact absurd hj (by simp)
    · split at hj
      · exact absurd hj (by simp)
      · split at hj
        · rename_i score hsub
          cases hj
          exact hsub
        · exact absurd hj (by simp)

/-- C4: under stop_on_error=False (and the default deep_error=False), any
score value returned rather than raised by judge is an instance of the
declared score type, or an NAScore, or an ErrorScore. -/
theorem C4_returned_score_classes (h : Hierarchy) (t : Test) (m : Model)
    (s : ScoreObj)
    (hret : Test.judge h t m false false = Except.ok s) :
    s.cls.isSubclassOf t.score_type = true ∨
      s.cls.isSubclassOf ScoreClass.NAScore = true ∨
      s.cls.isSubclassOf ScoreClass.ErrorScore = true := by
  unfold Test.judge at hret
  cases hj : Test._judge h t m with
  | ok s0 =>
    rw [hj] at hret
    simp at hret
    left
    exact hret ▸ _judge_ok_cls h t m s0 hj
  | error e =>
    rw [hj] at hret
    by_cases hc : e.isCapabilityError
    · simp [hc, constructScore, Val.isExn, Val.isNone] at hret
    · simp [hc, constructScore, Score.init, Val.isExn] at hret
      right; right
      rw [← hret]
      rfl

/-- C4 witness: the concrete successful judgment returns a score of the
declared score type. -/
theorem C4_returned_score_classes_witness :
    ({ cls := ScoreClass.Score, score := Val.int 1, related_data := []
       model := Option.some mHas, test := Option.some 10
       prediction := Option.some (Val.int 7)
       observation := Option.some (Val.int 0) } : ScoreObj).cls.isSubclassOf
          tCap.score_type = true ∨
      ({ cls := ScoreClass.Score, score := Val.int 1, related_data := []
         model := Option.some mHas, test := Option.some 10
         prediction := Option.some (Val.int 7)
         observation := Option.some (Val.int 0) } : ScoreObj).cls.isSubclassOf
          ScoreClass.NAScore = true ∨
      ({ cls := ScoreClass.Score, score := Val.int 1, related_data := []
         model := Option.some mHas, test := Option.some 10
         prediction := Option.some (Val.int 7)
         observation := Option.some (Val.int 0) } : ScoreObj).cls.isSubclassOf
          ScoreClass.ErrorScore = true :=
  C4_returned_score_classes H0 tCap mHas _ rfl

/-- C5 amended: check evaluates only the capability gate; it returns
TBDScore(None) when the gate returns True, and since check_capabilities
never returns False (it raises instead), the NAScore(None) branch is
unreachable; an exception from the gate becomes an ErrorScore wrapping it
when stop_on_error is False and is re-raised when stop_on_error is
True. -/
theorem C5_amended_check_contract (h : Hierarchy) (t : Test) (m : Model) :
    (Test.check_capabilities h t m = Except.ok true →
      ∀ b : Bool, Test.check h t m b
          = Except.ok (Score.init ScoreClass.TBDScore Val.none [])) ∧
    (∀ e, Test.check_capabilities h t m = Except.error e →
      Test.check h t m true = Except.error e ∧
      Test.check h t m false
          = Except.ok (Score.init ScoreClass.ErrorScore (Val.exn e) [])) ∧
    Test.check_capabilities h t m ≠ Except.ok false := by
  refine ⟨?_, ?_, ?_⟩
  · intro hgate b
    unfold Test.check
    rw [hgate]
    cases b <;> rfl
  · intro e hgate
    constructor <;> (unfold Test.check; rw [hgate]; rfl)
  · intro hgate
    unfold Test.check_capabilities at hgate
    split at hgate
    · exact absurd hgate (by simp)
    · simp at hgate

/-- C5 amended witness: the satisfied gate yields TBDScore(None) with
stop_on_error left at its default True. -/
theorem C5_amended_check_contract_witness :
    Test.check H0 tCap mHas true
        = Except.ok (Score.init ScoreClass.TBDScore Val.none []) :=
  (C5_amended_check_contract H0 tCap mHas).1 rfl true

/-- Whether an assignment triple has the shape (Test, Model) = Score that
ScoreMatrix.__setitem__ accepts. -/
def isTMS : Entity → Entity → Entity → Bool
  | Entity.test _, Entity.model _, Entity.score _ => true
  | _, _, _ => false

/-- C7 counterexample: assigning a cell for a Model that was never given
at construction succeeds and creates a fresh cell in the row, instead of
failing with a framework error as the claim demands; the conjuncts
record that the model is unknown to the matrix and that the write
returns a matrix with the new cell. -/
theorem C7_counterexample_unknown_model_write_succeeds :
    sm0.models.all (fun m => m.id != mLacks.id) = true ∧
    (ScoreMatrix.setItem sm0 [Entity.test tCap, Entity.model mLacks]
        (Entity.score sBlank)).map (fun sm => sm.matrix)
      = Except.ok [(10, [(1, Option.none), (2, Option.some sBlank)])] :=
  ⟨rfl, rfl⟩

/-- C7 amended: assignment checks only the types of the key components
and the value, never membership in the construction-time sequences: a
(Test, Model, Score) triple whose test id keys a row writes the cell
(creating it when the model id is absent from the row), a triple whose
test id keys no row fails with a KeyError, and a triple of any other
shape fails with the framework error; a failing assignment returns no
matrix, so it mutates nothing. -/
theorem C7_amended_setitem_contract (sm : ScoreMatrix) :
    (∀ (t : Test) (m : Model) (s : ScoreObj) row,
        assocGet sm.matrix t.id = Option.some row →
        ScoreMatrix.setItem sm [Entity.test t, Entity.model m]
            (Entity.score s)
          = Except.ok { sm with
              matrix := assocSet sm.matrix t.id
                (assocSet row m.id (Option.some s)) }) ∧
    (∀ (t : Test) (m : Model) (s : ScoreObj),
        assocGet sm.matrix t.id = Option.none →
        ScoreMatrix.setItem sm [Entity.test t, Entity.model m]
            (Entity.score s)
          = Except.error (Exn.keyError t.id)) ∧
    (∀ a b v, isTMS a b v = false →
        ScoreMatrix.setItem sm [a, b] v
          = Except.error (Exn.error "Expected (test, model) = score.")) := by
  refine ⟨?_, ?_, ?_⟩
  · intro t m s row hrow
    simp only [ScoreMatrix.setItem, hrow]
  · intro t m s hrow
    simp only [ScoreMatrix.setItem, hrow]
  · intro a b v hv
    cases a <;> cases b <;> cases v <;> first
      | rfl
      | simp [isTMS] at hv

/-- C7 amended witness: the unknown-model write against the concrete
matrix lands in the first conjunct of the contract. -/
theorem C7_amended_setitem_contract_witness :
    ScoreMatrix.setItem sm0 [Entity.test tCap, Entity.model mLacks]
        (Entity.score sBlank)
      = Except.ok { sm0 with
          matrix := assocSet sm0.matrix tCap.id
            (assocSet [(1, Option.none)] mLacks.id (Option.some sBlank)) } :=
  (C7_amended_setitem_contract sm0).1 tCap mLacks sBlank
    [(1, Option.none)] rfl

/-- Reading an association list at the key just written gives the value
just written. -/
theorem assocGet_assocSet_self {α : Type} (l : List (Nat × α)) (k : Nat)
    (v : α) : assocGet (assocSet l k v) k = Option.some v := by
  induction l with
  | nil => simp [assocGet, assocSet]
  | cons x rest ih =>
    obtain ⟨k0, v0⟩ := x
    by_cases hk : k0 = k
    · simp [assocSet, assocGet, hk]
    · simp [assocSet, assocGet, hk, ih]

/-- Reading an association list at a key other than the one written is
unchanged by the write. -/
theorem assocGet_assocSet_ne {α : Type} (l : List (Nat × α)) (k k' : Nat)
    (v : α) (hne : k' ≠ k) :
    assocGet (assocSet l k v) k' = assocGet l k' := by
  induction l with
  | nil => simp [assocGet, assocSet, Ne.symm hne]
  | cons x rest ih =>
    obtain ⟨k0, v0⟩ := x
    by_cases hk : k0 = k
    · subst hk
      simp [assocSet, assocGet, Ne.symm hne]
    · by_cases hk' : k0 = k'
      · simp [assocSet, assocGet, hk, hk', hne]
      · simp [assocSet, assocGet, hk, hk', ih]

/-- When every element maps to a success, mapExcept succeeds with a list
of the same length whose entries are the pointwise results in order. -/
theorem mapExcept_ok_of_all {α β : Type} (f : α → Except Exn β) :
    ∀ (l : List α), (∀ x, x ∈ l → ∃ y, f x = Except.ok y) →
    ∃ ys, mapExcept f l = Except.ok ys ∧ ys.length = l.length ∧
      ∀ j (hj : j < l.length), ∃ y, ys[j]? = Option.some y ∧
        f (l.get ⟨j, hj⟩) = Except.ok y := by
  intro l
  induction l with
  | nil =>
    intro _
    exact ⟨[], rfl, rfl, fun j hj => absurd hj (by simp)⟩
  | cons x rest ih =>
    intro hall
    obtain ⟨y, hy⟩ := hall x (List.mem_cons_self x rest)
    obtain ⟨ys, hys, hlen, hidx⟩ :=
      ih (fun z hz => hall z (List.mem_cons_of_mem x hz))
    refine ⟨y :: ys, ?_, ?_, ?_⟩
    · simp [mapExcept, hy, hys]
    · simp [hlen]
    · intro j hj
      cases j with
      | zero => exact ⟨y, by simp, hy⟩
      | succ n =>
        obtain ⟨z, hz1, hz2⟩ := hidx n (by simpa using hj)
        exact ⟨z, by simpa using hz1, hz2⟩

/-- The construction-shape invariant of a score matrix: every
construction test keys a row, and in that row every construction model
keys a cell. -/
def ScoreMatrix.covered (sm : ScoreMatrix) : Prop :=
  ∀ t, t ∈ sm.tests → ∃ row, assocGet sm.matrix t.id = Option.some row ∧
    ∀ m, m ∈ sm.models → ∃ c, assocGet row m.id = Option.some c

/-- Reading a constant-valued association list built over a list of keys
succeeds at every key of the list. -/
theorem assocGet_map_const {α β : Type} (f : α → Nat) (b : β) :
    ∀ (l : List α) (x : α), x ∈ l →
      assocGet (l.map (fun y => (f y, b))) (f x) = Option.some b := by
  intro l
  induction l with
  | nil => intro x hx; cases hx
  | cons y rest ih =>
    intro x hx
    by_cases h : f y = f x
    · simp [assocGet, h]
    · rcases List.mem_cons.mp hx with rfl | hx2
      · exact absurd rfl h
      · simp [assocGet, h, ih x hx2]

/-- A freshly built matrix satisfies the construction-shape invariant. -/
theorem make_covered (tests : List Test) (models : List Model) :
    (ScoreMatrix.make tests models).covered := by
  intro t ht
  refine ⟨models.map (fun m => (m.id, Option.none)), ?_, ?_⟩
  · exact assocGet_map_const (fun t0 => t0.id) _ tests t ht
  · intro m hm
    exact ⟨Option.none, assocGet_map_const (fun m0 => m0.id) _ models m hm⟩

/-- C8: on a matrix with the construction shape, writing a cell for a
construction test and model and reading it back through the (test, model)
tuple key returns exactly the written score; reading by the test alone
returns a tuple whose length is the model count and whose j-th entry is
the stored cell of the j-th construction model, and reading by the model
alone returns a tuple whose length is the test count and whose i-th entry
is the stored cell of the i-th construction test. -/
theorem C8_round_trip (sm : ScoreMatrix) (t : Test) (m : Model) (s : ScoreObj)
    (sm' : ScoreMatrix) (ht : t ∈ sm.tests) (hm : m ∈ sm.models)
    (hcov : sm.covered)
    (hset : ScoreMatrix.setItem sm [Entity.test t, Entity.model m]
        (Entity.score s) = Except.ok sm') :
    ScoreMatrix.getItem sm' (PyKey.tuple [Entity.test t, Entity.model m])
        = Except.ok (ItemResult.one (Option.some s)) ∧
    (∃ cs, ScoreMatrix.getItem sm' (PyKey.test t)
          = Except.ok (ItemResult.many cs) ∧
        cs.length = sm.models.length ∧
        ∀ j (hj : j < sm.models.length), ∃ c, cs[j]? = Option.some c ∧
          lookupCell sm'.matrix t.id (sm.models.get ⟨j, hj⟩).id
            = Except.ok c) ∧
    (∃ cs, ScoreMatrix.getItem sm' (PyKey.model m)
          = Except.ok (ItemResult.many cs) ∧
        cs.length = sm.tests.length ∧
        ∀ i (hi : i < sm.tests.length), ∃ c, cs[i]? = Option.some c ∧
          lookupCell sm'.matrix (sm.tests.get ⟨i, hi⟩).id m.id
            = Except.ok c) := by
  obtain ⟨row, hrow, hcells⟩ := hcov t ht
  have hsm' : sm' = { sm with
      matrix := assocSet sm.matrix t.id (assocSet row m.id (Option.some s)) } := by
    simp only [ScoreMatrix.setItem, hrow] at hset
    exact (Except.ok.inj hset).symm
  subst hsm'
  have hM : assocGet (assocSet sm.matrix t.id
      (assocSet row m.id (Option.some s))) t.id
      = Option.some (assocSet row m.id (Option.some s)) :=
    assocGet_assocSet_self sm.matrix t.id _
  have hR : assocGet (assocSet row m.id (Option.some s)) m.id
      = Option.some (Option.some s) := assocGet_assocSet_self row m.id _
  have hcellm : ∀ m0 : Model, m0 ∈ sm.models → ∃ c,
      lookupCell (assocSet sm.matrix t.id (assocSet row m.id (Option.some s)))
        t.id m0.id = Except.ok c := by
    intro m0 hm0
    by_cases hid : m0.id = m.id
    · exact ⟨Option.some s, by simp [lookupCell, hM, hid, hR]⟩
    · obtain ⟨c, hc⟩ := hcells m0 hm0
      exact ⟨c, by simp [lookupCell, hM, assocGet_assocSet_ne row m.id m0.id _ hid, hc]⟩
  have hcellt : ∀ t0 : Test, t0 ∈ sm.tests → ∃ c,
      lookupCell (assocSet sm.matrix t.id (assocSet row m.id (Option.some s)))
        t0.id m.id = Except.ok c := by
    intro t0 ht0
    by_cases hid : t0.id = t.id
    · exact ⟨Option.some s, by simp [lookupCell, hid, hM, hR]⟩
    · obtain ⟨row0, hrow0, hcells0⟩ := hcov t0 ht0
      obtain ⟨c, hc⟩ := hcells0 m hm
      exact ⟨c, by
        simp [lookupCell, assocGet_assocSet_ne sm.matrix t.id t0.id _ hid,
          hrow0, hc]⟩
  refine ⟨?_, ?_, ?_⟩
  · simp [ScoreMatrix.getItem, lookupCell, hM, hR, Except.map]
  · obtain ⟨cs, hcs, hlen, hidx⟩ := mapExcept_ok_of_all _ sm.models hcellm
    refine ⟨cs, ?_, hlen, fun j hj => hidx j hj⟩
    simp only [ScoreMatrix.getItem]
    rw [hcs]
    rfl
  · obtain ⟨cs, hcs, hlen, hidx⟩ := mapExcept_ok_of_all _ sm.tests hcellt
    refine ⟨cs, ?_, hlen, fun i hi => hidx i hi⟩
    simp only [ScoreMatrix.getItem]
    rw [hcs]
    rfl

/-- The concrete matrix sm0 after writing sBlank into its only cell. -/
def sm1 : ScoreMatrix :=
  { tests := [tCap], models := [mHas]
    matrix := [(10, [(1, Option.some sBlank)])] }

/-- C8 witness: the concrete one-by-one matrix round trip. -/
theorem C8_round_trip_witness :
    ScoreMatrix.getItem sm1 (PyKey.tuple [Entity.test tCap, Entity.model mHas])
        = Except.ok (ItemResult.one (Option.some sBlank)) ∧
    (∃ cs, ScoreMatrix.getItem sm1 (PyKey.test tCap)
          = Except.ok (ItemResult.many cs) ∧
        cs.length = sm0.models.length ∧
        ∀ j (hj : j < sm0.models.length), ∃ c, cs[j]? = Option.some c ∧
          lookupCell sm1.matrix tCap.id (sm0.models.get ⟨j, hj⟩).id
            = Except.ok c) ∧
    (∃ cs, ScoreMatrix.getItem sm1 (PyKey.model mHas)
          = Except.ok (ItemResult.many cs) ∧
        cs.length = sm0.tests.length ∧
        ∀ i (hi : i < sm0.tests.length), ∃ c, cs[i]? = Option.some c ∧
          lookupCell sm1.matrix (sm0.tests.get ⟨i, hi⟩).id mHas.id
            = Except.ok c) :=
  C8_round_trip sm0 tCap mHas sBlank sm1 (List.mem_singleton.mpr rfl)
    (List.mem_singleton.mpr rfl) (make_covered [tCap] [mHas]) rfl

end Sciunit
